import Mathlib

/-!
Verification of the Study Buddy in-process fixed-window rate limiter
(`server/middleware/rateLimit.ts`-style module, given as `src/unnamed/part_000`).

The middleware is embedded shallowly:

* `RateLimitEntry` mirrors the `RateLimitEntry` interface (`count`, `resetTime`).
* `Store` models the single module-level `rateLimitStore : Map<string, RateLimitEntry>`.
  Note that the source declares ONE module-level map shared by every middleware
  closure returned by `rateLimit(options)`; the embedding therefore threads one
  `Store` value through all calls, whichever options a given call uses.
* `rateLimit opts store key now` is the body of the middleware closure for one
  request: the key has already been computed by the key generator, and `now`
  stands for `Date.now()`.  It returns the updated store together with an
  `HttpOut` record collecting every observable effect on the response object:
  the three `X-RateLimit-*` headers, the optional `Retry-After` header, the
  optional status / JSON body, and whether `next()` was invoked.
* `sweepStore` is the body of the 5-minute `setInterval` cleanup pass.

Timestamps are milliseconds since epoch as natural numbers (`Date.now() ≥ 0`).
Header values that the source computes as possibly-negative JS numbers
(`maxRequests - 1` on the fresh-window path) are modelled as `Int`.
-/

/-- Mirror of the source interface `RateLimitEntry { count; resetTime }`. -/
structure RateLimitEntry where
  count : Nat
  resetTime : Nat
  deriving Repr, DecidableEq

/-- The module-level `rateLimitStore` map, as a total lookup function. -/
abbrev Store := String → Option RateLimitEntry

/-- The store at process start: no entries. -/
def emptyStore : Store := fun _ => none

/-- Body of the periodic cleanup (source lines 12-19): delete every entry with
`entry.resetTime < now`, keep the rest. -/
def sweepStore (now : Nat) (store : Store) : Store :=
  fun k =>
    match store k with
    | some entry => if entry.resetTime < now then none else some entry
    | none => none

/-- Mirror of `RateLimitOptions` with the source defaults (lines 32-37). -/
structure RateLimitOptions where
  windowMs : Nat := 60 * 1000
  maxRequests : Nat := 10
  message : String := "Too many requests. Please wait before trying again."
  deriving Repr, DecidableEq

/-- `Math.ceil(a / 1000)` for a non-negative numerator. -/
def mathCeilDiv1000 (a : Nat) : Nat := (a + 999) / 1000

/-- The JSON body sent with a 429 (source lines 69-73). -/
structure JsonBody where
  error : String
  code : String
  retryAfter : Nat
  deriving Repr, DecidableEq

/-- Observable effects of one middleware call on the response object. -/
structure HttpOut where
  limitHeader : Nat
  remainingHeader : Int
  resetHeader : Nat
  retryAfterHeader : Option Nat
  status : Option Nat
  body : Option JsonBody
  calledNext : Bool
  deriving Repr, DecidableEq

/-- The three `X-RateLimit-*` headers followed by `next()` (admission). -/
def admitHeaders (opts : RateLimitOptions) (remaining : Int) (resetTime : Nat) : HttpOut :=
  { limitHeader := opts.maxRequests
    remainingHeader := remaining
    resetHeader := mathCeilDiv1000 resetTime
    retryAfterHeader := none
    status := none
    body := none
    calledNext := true }

/-- The three `X-RateLimit-*` headers plus `Retry-After`, status 429 and the
JSON body, with no call to `next()` (rejection, source lines 65-74). -/
def rejectResponse (opts : RateLimitOptions) (remaining : Int)
    (retryAfterSeconds resetTime : Nat) : HttpOut :=
  { limitHeader := opts.maxRequests
    remainingHeader := remaining
    resetHeader := mathCeilDiv1000 resetTime
    retryAfterHeader := some retryAfterSeconds
    status := some 429
    body := some { error := opts.message, code := "RATE_LIMITED",
                   retryAfter := retryAfterSeconds }
    calledNext := false }

/-- The fresh-window branch (source lines 45-56): store a new entry with
`count = 1`, `resetTime = now + windowMs`, set the three headers — with
`X-RateLimit-Remaining = maxRequests - 1`, unclamped — and call `next()`. -/
def freshWindow (opts : RateLimitOptions) (store : Store) (key : String) (now : Nat) :
    Store × HttpOut :=
  let entry : RateLimitEntry := { count := 1, resetTime := now + opts.windowMs }
  let store1 : Store := fun k => if k = key then some entry else store k
  (store1, admitHeaders opts ((opts.maxRequests : Int) - 1) entry.resetTime)

/-- Body of the middleware closure for one request (source lines 39-77).
`key` is the already-extracted rate-limit key, `now` is `Date.now()`. -/
def rateLimit (opts : RateLimitOptions) (store : Store) (key : String) (now : Nat) :
    Store × HttpOut :=
  match store key with
  | none => freshWindow opts store key now
  | some entry =>
    if entry.resetTime < now then
      freshWindow opts store key now
    else
      let entry1 : RateLimitEntry := { entry with count := entry.count + 1 }
      let store1 : Store := fun k => if k = key then some entry1 else store k
      if entry1.count > opts.maxRequests then
        (store1,
          rejectResponse opts (max 0 ((opts.maxRequests : Int) - entry1.count))
            (mathCeilDiv1000 (entry1.resetTime - now)) entry1.resetTime)
      else
        (store1,
          admitHeaders opts (max 0 ((opts.maxRequests : Int) - entry1.count))
            entry1.resetTime)

/-- Request fields read by the default key generator (source lines 80-89). -/
structure Req where
  userSub : Option String
  ip : Option String
  remoteAddress : Option String

/-- JS `a || b` on an optional string: an absent or empty string is falsy. -/
def jsStringOr (a : Option String) (b : String) : String :=
  match a with
  | some s => if s = "" then b else s
  | none => b

/-- Mirror of `defaultKeyGenerator` (source lines 80-89): user id when the
request carries a truthy one, else the network address, else `"unknown"`. -/
def defaultKeyGenerator (req : Req) : String :=
  match req.userSub with
  | some sub =>
    if sub = "" then "ip:" ++ jsStringOr req.ip (jsStringOr req.remoteAddress "unknown")
    else "user:" ++ sub
  | none => "ip:" ++ jsStringOr req.ip (jsStringOr req.remoteAddress "unknown")

/-- Options of the preconfigured `aiRateLimit` middleware (source lines 94-98). -/
def aiRateLimitOptions : RateLimitOptions :=
  { windowMs := 60 * 1000
    maxRequests := 15
    message := "You\x27ve reached the message limit. Please wait a moment before sending more." }

/-- Options of the preconfigured `parseRateLimit` middleware (source lines 103-107). -/
def parseRateLimitOptions : RateLimitOptions :=
  { windowMs := 60 * 1000
    maxRequests := 5
    message := "Too many parse requests. Please wait before trying again." }

/-- Run a sequence of calls with one key, threading the shared store and
collecting each call's response effects. -/
def runCalls (opts : RateLimitOptions) (key : String) :
    Store → List Nat → Store × List HttpOut
  | s, [] => (s, [])
  | s, t :: ts =>
    let r1 := rateLimit opts s key t
    let r2 := runCalls opts key r1.1 ts
    (r2.1, r1.2 :: r2.2)

/-! ## Branch lemmas for `rateLimit` -/

/-- With no entry stored for the key, the call takes the fresh-window branch. -/
lemma rateLimit_fresh (opts : RateLimitOptions) (s : Store) (key : String) (now : Nat)
    (hkey : s key = none) :
    (rateLimit opts s key now).1 key = some ⟨1, now + opts.windowMs⟩ ∧
    (rateLimit opts s key now).2 =
      admitHeaders opts ((opts.maxRequests : Int) - 1) (now + opts.windowMs) := by
  simp [rateLimit, hkey, freshWindow]

/-- With an expired entry stored for the key, the call takes the fresh-window
branch, discarding the old count entirely. -/
lemma rateLimit_expired (opts : RateLimitOptions) (s : Store) (key : String) (now : Nat)
    (e : RateLimitEntry) (hkey : s key = some e) (hx : e.resetTime < now) :
    (rateLimit opts s key now).1 key = some ⟨1, now + opts.windowMs⟩ ∧
    (rateLimit opts s key now).2 =
      admitHeaders opts ((opts.maxRequests : Int) - 1) (now + opts.windowMs) := by
  simp [rateLimit, hkey, hx, freshWindow]

/-- A live entry below the ceiling: increment and admit. -/
lemma rateLimit_live_admit (opts : RateLimitOptions) (s : Store) (key : String)
    (t c w : Nat) (hkey : s key = some ⟨c, w⟩) (ht : t ≤ w)
    (hc : c + 1 ≤ opts.maxRequests) :
    (rateLimit opts s key t).1 key = some ⟨c + 1, w⟩ ∧
    (rateLimit opts s key t).2 =
      admitHeaders opts ((opts.maxRequests : Int) - ((c : Int) + 1)) w := by
  have h1 : ¬ w < t := not_lt.mpr ht
  have h2 : ¬ c + 1 > opts.maxRequests := not_lt.mpr hc
  have h3 : max 0 ((opts.maxRequests : Int) - ((c : Int) + 1)) =
      (opts.maxRequests : Int) - ((c : Int) + 1) := by
    apply max_eq_right; omega
  simp [rateLimit, hkey, h1, h2, h3]

/-- A live entry at or above the ceiling: increment and reject. -/
lemma rateLimit_live_reject (opts : RateLimitOptions) (s : Store) (key : String)
    (t c w : Nat) (hkey : s key = some ⟨c, w⟩) (ht : t ≤ w)
    (hc : opts.maxRequests < c + 1) :
    (rateLimit opts s key t).1 key = some ⟨c + 1, w⟩ ∧
    (rateLimit opts s key t).2 =
      rejectResponse opts (max 0 ((opts.maxRequests : Int) - ((c : Int) + 1)))
        (mathCeilDiv1000 (w - t)) w := by
  have h1 : ¬ w < t := not_lt.mpr ht
  have h2 : c + 1 > opts.maxRequests := hc
  simp [rateLimit, hkey, h1, h2]

/-! ## Claim C1 -/

/-- Claim C1 is false on the code: with maxRequests = 0 and a fresh key, the
first call takes the fresh-window branch, which calls next() unconditionally —
the request is admitted (no 429 status, no Retry-After), not rejected. -/
theorem c1_counterexample :
    ((rateLimit { windowMs := 60000, maxRequests := 0 } emptyStore "user:42" 0).2.calledNext
       = true) ∧
    ((rateLimit { windowMs := 60000, maxRequests := 0 } emptyStore "user:42" 0).2.status
       = none) ∧
    ((rateLimit { windowMs := 60000, maxRequests := 0 } emptyStore "user:42" 0).2.retryAfterHeader
       = none) := by
  refine ⟨rfl, rfl, rfl⟩

/-- Claim C1, amended: with maxRequests = 0, the first call for a fresh key is
ADMITTED (it creates the window with count = 1 and reports remaining = -1);
every subsequent call inside that window is rejected with
retryAfterSeconds = ceil((windowEnd - t)/1000); in particular a second call at
the same instant is rejected with ceil(windowDurationMs/1000). -/
theorem c1_amended_max_zero (opts : RateLimitOptions) (s : Store) (key : String)
    (now t : Nat) (hmax : opts.maxRequests = 0) (hkey : s key = none)
    (ht : t ≤ now + opts.windowMs) :
    (rateLimit opts s key now).2.calledNext = true ∧
    (rateLimit opts s key now).2.remainingHeader = -1 ∧
    (rateLimit opts (rateLimit opts s key now).1 key t).2 =
      rejectResponse opts 0 (mathCeilDiv1000 (now + opts.windowMs - t))
        (now + opts.windowMs) := by
  obtain ⟨hs1, hout1⟩ := rateLimit_fresh opts s key now hkey
  obtain ⟨hs2, hout2⟩ := rateLimit_live_reject opts (rateLimit opts s key now).1 key
    t 1 (now + opts.windowMs) hs1 ht (by omega)
  refine ⟨by simp [hout1, admitHeaders], by simp [hout1, admitHeaders, hmax], ?_⟩
  rw [hout2, hmax]
  norm_num

/-- Witness for the amended C1 at concrete inputs. -/
theorem c1_amended_max_zero_witness :
    (({ windowMs := 60000, maxRequests := 0 } : RateLimitOptions).maxRequests = 0) ∧
    (emptyStore "k" = none) ∧
    ((0 : Nat) ≤ 0 + 60000) ∧
    ((rateLimit { windowMs := 60000, maxRequests := 0 } emptyStore "k" 0).2.calledNext = true ∧
     (rateLimit { windowMs := 60000, maxRequests := 0 } emptyStore "k" 0).2.remainingHeader = -1 ∧
     (rateLimit { windowMs := 60000, maxRequests := 0 }
        (rateLimit { windowMs := 60000, maxRequests := 0 } emptyStore "k" 0).1 "k" 0).2 =
       rejectResponse { windowMs := 60000, maxRequests := 0 } 0
         (mathCeilDiv1000 (0 + 60000 - 0)) (0 + 60000)) :=
  ⟨rfl, rfl, by norm_num,
    c1_amended_max_zero { windowMs := 60000, maxRequests := 0 } emptyStore "k" 0 0
      rfl rfl (by norm_num)⟩

/-! ## Claim C4 -/

/-- Claim C4 is false on the code: on the fresh-window path the remaining
budget is reported as maxRequests - 1 without clamping, so with
maxRequests = 0 the very first call reports -1, a negative remaining value. -/
theorem c4_counterexample :
    (rateLimit { windowMs := 60000, maxRequests := 0 } emptyStore "k" 0).2.remainingHeader
      = -1 := by
  rfl

/-- Claim C4, amended: the in-window path clamps remaining at 0, and the
fresh-window path reports maxRequests - 1, which is non-negative exactly when
maxRequests ≥ 1; hence for every configuration with maxRequests ≥ 1 the
reported remaining value is never negative on any call. -/
theorem c4_amended_remaining_nonneg (opts : RateLimitOptions) (s : Store)
    (key : String) (now : Nat) (hmax : 1 ≤ opts.maxRequests) :
    0 ≤ (rateLimit opts s key now).2.remainingHeader := by
  unfold rateLimit freshWindow admitHeaders rejectResponse
  cases hkey : s key with
  | none => simp; omega
  | some e =>
    by_cases hx : e.resetTime < now
    · simp [hx]; omega
    · by_cases hc : e.count + 1 > opts.maxRequests
      · simp [hx, hc]
      · simp [hx, hc]

/-- Witness for the amended C4 at concrete inputs. -/
theorem c4_amended_remaining_nonneg_witness :
    (1 ≤ ({ windowMs := 60000, maxRequests := 5 } : RateLimitOptions).maxRequests) ∧
    (0 ≤ (rateLimit { windowMs := 60000, maxRequests := 5 } emptyStore "k" 0).2.remainingHeader) :=
  ⟨by norm_num,
    c4_amended_remaining_nonneg { windowMs := 60000, maxRequests := 5 } emptyStore "k" 0
      (by norm_num)⟩

/-! ## Claim C2 -/

/-- Claim C2 is false on the code: the source keeps ONE module-level
rateLimitStore shared by every middleware closure, so after one call through
the aiRateLimit instance for key "user:42", a call through the parseRateLimit
instance for the same key reads and increments that same entry (count becomes
2 and parse reports remaining 3), whereas on its own store the parse call
would have created a fresh entry and reported remaining 4. -/
theorem c2_counterexample :
    ((rateLimit parseRateLimitOptions
        (rateLimit aiRateLimitOptions emptyStore "user:42" 0).1 "user:42" 0).1 "user:42"
      = some { count := 2, resetTime := 60000 }) ∧
    ((rateLimit parseRateLimitOptions
        (rateLimit aiRateLimitOptions emptyStore "user:42" 0).1 "user:42" 0).2.remainingHeader
      = 3) ∧
    ((rateLimit parseRateLimitOptions emptyStore "user:42" 0).2.remainingHeader = 4) := by
  refine ⟨rfl, rfl, rfl⟩

/-- Claim C2, amended: the two preconfigured instances share the single
module-level store, keyed only by the key string; for any fresh key, one call
through the aiRateLimit options followed by an in-window call through the
parseRateLimit options leaves a single shared entry with count 2, and the
parse call reports remaining 3 (its ceiling 5 minus the shared count), i.e.
each instance reads and mutates the entry the other instance uses. -/
theorem c2_amended_shared_store (s : Store) (key : String) (now t : Nat)
    (hkey : s key = none) (ht : t ≤ now + 60000) :
    (rateLimit parseRateLimitOptions
        (rateLimit aiRateLimitOptions s key now).1 key t).1 key
      = some { count := 2, resetTime := now + 60000 } ∧
    (rateLimit parseRateLimitOptions
        (rateLimit aiRateLimitOptions s key now).1 key t).2.remainingHeader = 3 := by
  obtain ⟨hs1, _⟩ := rateLimit_fresh aiRateLimitOptions s key now hkey
  have hw : aiRateLimitOptions.windowMs = 60000 := rfl
  rw [hw] at hs1
  obtain ⟨hs2, hout2⟩ := rateLimit_live_admit parseRateLimitOptions
    (rateLimit aiRateLimitOptions s key now).1 key t 1 (now + 60000) hs1 ht
    (by norm_num [parseRateLimitOptions])
  refine ⟨hs2, ?_⟩
  rw [hout2]
  norm_num [admitHeaders, parseRateLimitOptions]

/-- Witness for the amended C2 at concrete inputs. -/
theorem c2_amended_shared_store_witness :
    (emptyStore "user:42" = none) ∧
    ((0 : Nat) ≤ 0 + 60000) ∧
    ((rateLimit parseRateLimitOptions
        (rateLimit aiRateLimitOptions emptyStore "user:42" 0).1 "user:42" 0).1 "user:42"
      = some { count := 2, resetTime := 0 + 60000 } ∧
     (rateLimit parseRateLimitOptions
        (rateLimit aiRateLimitOptions emptyStore "user:42" 0).1 "user:42" 0).2.remainingHeader
      = 3) :=
  ⟨rfl, by norm_num,
    c2_amended_shared_store emptyStore "user:42" 0 0 rfl (by norm_num)⟩

/-! ## Claim C3 -/

/-- Claim C3 is false on the code: with windowMs = 60000 and maxRequests = 1,
a first call at t = 0 is admitted (windowEnd = 60000), a second call at t = 0
is rejected with retryAfterSeconds = 60, and the retry issued exactly at
t = 0 + 1000 * 60 = 60000 is REJECTED again, because expiry is the strict
comparison resetTime < now and 60000 < 60000 is false. -/
theorem c3_counterexample :
    ((rateLimit { windowMs := 60000, maxRequests := 1 }
        (rateLimit { windowMs := 60000, maxRequests := 1 } emptyStore "k" 0).1
        "k" 0).2.retryAfterHeader = some 60) ∧
    ((rateLimit { windowMs := 60000, maxRequests := 1 }
        (rateLimit { windowMs := 60000, maxRequests := 1 } emptyStore "k" 0).1
        "k" 0).2.status = some 429) ∧
    ((rateLimit { windowMs := 60000, maxRequests := 1 }
        (rateLimit { windowMs := 60000, maxRequests := 1 }
          (rateLimit { windowMs := 60000, maxRequests := 1 } emptyStore "k" 0).1
          "k" 0).1 "k" (0 + 1000 * 60)).2.calledNext = false) ∧
    ((rateLimit { windowMs := 60000, maxRequests := 1 }
        (rateLimit { windowMs := 60000, maxRequests := 1 }
          (rateLimit { windowMs := 60000, maxRequests := 1 } emptyStore "k" 0).1
          "k" 0).1 "k" (0 + 1000 * 60)).2.status = some 429) := by
  refine ⟨rfl, rfl, rfl, rfl⟩

/-- Claim C3, amended: for every Reject at time now with retry-after r, the
boundary now + 1000 * r is never before windowEnd; the retry issued exactly
at now + 1000 * r is admitted when windowEnd - now is not an exact multiple
of 1000 (then the boundary lies strictly after windowEnd); but when
windowEnd - now is an exact multiple of 1000, the boundary equals windowEnd,
where the strict expiry comparison still treats the entry as live, so the
retry at exactly now + 1000 * r is rejected again. -/
theorem c3_amended_boundary (opts : RateLimitOptions) (s : Store) (key : String)
    (now c w : Nat) (hkey : s key = some ⟨c, w⟩) (hlive : now ≤ w)
    (hover : opts.maxRequests < c + 1) :
    ((rateLimit opts s key now).2.retryAfterHeader
      = some (mathCeilDiv1000 (w - now))) ∧
    (w ≤ now + 1000 * mathCeilDiv1000 (w - now)) ∧
    ((w - now) % 1000 ≠ 0 →
      (rateLimit opts (rateLimit opts s key now).1 key
          (now + 1000 * mathCeilDiv1000 (w - now))).2.calledNext = true ∧
      (rateLimit opts (rateLimit opts s key now).1 key
          (now + 1000 * mathCeilDiv1000 (w - now))).2.status = none) ∧
    ((w - now) % 1000 = 0 →
      now + 1000 * mathCeilDiv1000 (w - now) = w ∧
      (rateLimit opts (rateLimit opts s key now).1 key
          (now + 1000 * mathCeilDiv1000 (w - now))).2.status = some 429) := by
  obtain ⟨hs1, hout1⟩ := rateLimit_live_reject opts s key now c w hkey hlive hover
  have hge : w ≤ now + 1000 * mathCeilDiv1000 (w - now) := by
    unfold mathCeilDiv1000; omega
  refine ⟨by rw [hout1]; rfl, hge, ?_, ?_⟩
  · intro hmod
    have hgt : w < now + 1000 * mathCeilDiv1000 (w - now) := by
      unfold mathCeilDiv1000 at hge ⊢; omega
    obtain ⟨_, hout2⟩ := rateLimit_expired opts (rateLimit opts s key now).1 key
      (now + 1000 * mathCeilDiv1000 (w - now)) ⟨c + 1, w⟩ hs1 hgt
    rw [hout2]
    exact ⟨rfl, rfl⟩
  · intro hmod
    have heq : now + 1000 * mathCeilDiv1000 (w - now) = w := by
      unfold mathCeilDiv1000; omega
    obtain ⟨_, hout2⟩ := rateLimit_live_reject opts (rateLimit opts s key now).1 key
      (now + 1000 * mathCeilDiv1000 (w - now)) (c + 1) w hs1 (le_of_eq heq)
      (by omega)
    rw [hout2]
    exact ⟨heq, rfl⟩

/-- Store used to witness the amended C3: one live entry with an odd window
end so that windowEnd - now is not a multiple of 1000. -/
def c3WitnessStore : Store := fun k => if k = "k" then some ⟨1, 500⟩ else none

/-- Witness for the amended C3 at concrete inputs. -/
theorem c3_amended_boundary_witness :
    (c3WitnessStore "k" = some ⟨1, 500⟩) ∧
    ((0 : Nat) ≤ 500) ∧
    (({ windowMs := 60000, maxRequests := 1 } : RateLimitOptions).maxRequests < 1 + 1) ∧
    ((rateLimit { windowMs := 60000, maxRequests := 1 } c3WitnessStore "k" 0).2.retryAfterHeader
      = some (mathCeilDiv1000 (500 - 0))) ∧
    (500 ≤ 0 + 1000 * mathCeilDiv1000 (500 - 0)) ∧
    ((rateLimit { windowMs := 60000, maxRequests := 1 }
        (rateLimit { windowMs := 60000, maxRequests := 1 } c3WitnessStore "k" 0).1 "k"
        (0 + 1000 * mathCeilDiv1000 (500 - 0))).2.calledNext = true) :=
  have h := c3_amended_boundary { windowMs := 60000, maxRequests := 1 }
    c3WitnessStore "k" 0 1 500 rfl (by norm_num) (by norm_num)
  ⟨rfl, by norm_num, by norm_num, h.1, h.2.1,
    (h.2.2.1 (by norm_num)).1⟩

/-! ## Claim C6 -/

/-- Claim C6: for every key whose entry's windowEnd has passed (windowEnd <
now), the next call with that key is admitted with remaining = maxRequests - 1
and a fresh entry with count 1 and windowEnd = now + windowDurationMs,
regardless of the count accumulated in the prior window — a full reset. -/
theorem c6_full_reset (opts : RateLimitOptions) (s : Store) (key : String)
    (now : Nat) (e : RateLimitEntry) (hkey : s key = some e)
    (hexp : e.resetTime < now) :
    (rateLimit opts s key now).2 =
      admitHeaders opts ((opts.maxRequests : Int) - 1) (now + opts.windowMs) ∧
    (rateLimit opts s key now).1 key = some ⟨1, now + opts.windowMs⟩ := by
  obtain ⟨h1, h2⟩ := rateLimit_expired opts s key now e hkey hexp
  exact ⟨h2, h1⟩

/-- Store used to witness C6: one entry whose window has long expired after a
burst of seven requests. -/
def c6WitnessStore : Store := fun k => if k = "k" then some ⟨7, 100⟩ else none

/-- Witness for C6 at concrete inputs. -/
theorem c6_full_reset_witness :
    (c6WitnessStore "k" = some ⟨7, 100⟩) ∧
    ((100 : Nat) < 200) ∧
    ((rateLimit { windowMs := 60000, maxRequests := 10 } c6WitnessStore "k" 200).2 =
      admitHeaders { windowMs := 60000, maxRequests := 10 } ((10 : Int) - 1) (200 + 60000) ∧
     (rateLimit { windowMs := 60000, maxRequests := 10 } c6WitnessStore "k" 200).1 "k" =
      some ⟨1, 200 + 60000⟩) :=
  ⟨rfl, by norm_num,
    c6_full_reset { windowMs := 60000, maxRequests := 10 } c6WitnessStore "k" 200
      ⟨7, 100⟩ rfl (by norm_num)⟩

/-! ## Claim C7 -/

/-- Claim C7: a sweep pass at time now deletes exactly the expired entries:
an entry whose windowEnd has not yet passed (now ≤ windowEnd) survives the
pass unchanged, and an entry whose windowEnd has already passed
(windowEnd < now) is absent from the store after the pass. -/
theorem c7_sweep_exact (s : Store) (now : Nat) (k : String) (e : RateLimitEntry)
    (h : s k = some e) :
    (e.resetTime < now → sweepStore now s k = none) ∧
    (now ≤ e.resetTime → sweepStore now s k = some e) := by
  constructor
  · intro h2; simp [sweepStore, h, h2]
  · intro h2; simp [sweepStore, h, not_lt.mpr h2]

/-- Store used to witness C7: key "a" still live at time 50, key "b" expired. -/
def c7WitnessStore : Store :=
  fun k => if k = "a" then some ⟨1, 100⟩ else if k = "b" then some ⟨2, 10⟩ else none

/-- Witness for C7 at concrete inputs: the sweep at time 50 keeps the live
entry at "a" and deletes the expired entry at "b". -/
theorem c7_sweep_exact_witness :
    (c7WitnessStore "a" = some ⟨1, 100⟩) ∧
    (c7WitnessStore "b" = some ⟨2, 10⟩) ∧
    ((50 : Nat) ≤ 100) ∧
    ((10 : Nat) < 50) ∧
    (sweepStore 50 c7WitnessStore "a" = some ⟨1, 100⟩) ∧
    (sweepStore 50 c7WitnessStore "b" = none) :=
  ⟨rfl, rfl, by norm_num, by norm_num,
    (c7_sweep_exact c7WitnessStore 50 "a" ⟨1, 100⟩ rfl).2 (by norm_num),
    (c7_sweep_exact c7WitnessStore 50 "b" ⟨2, 10⟩ rfl).1 (by norm_num)⟩

/-! ## Claim C8 -/

/-- Claim C8: every call either admits — next() is called, no status and no
body are set — or rejects with HTTP status 429, a JSON body carrying the
configured message, the machine-readable code RATE_LIMITED and the numeric
retry-after seconds (matching the Retry-After header), and next() NOT called;
rejection is the only error outcome the middleware produces. -/
theorem c8_reject_contract (opts : RateLimitOptions) (s : Store) (key : String)
    (now : Nat) :
    ((rateLimit opts s key now).2.calledNext = true ∧
     (rateLimit opts s key now).2.status = none ∧
     (rateLimit opts s key now).2.body = none) ∨
    (∃ r, (rateLimit opts s key now).2.calledNext = false ∧
      (rateLimit opts s key now).2.status = some 429 ∧
      (rateLimit opts s key now).2.body =
        some { error := opts.message, code := "RATE_LIMITED", retryAfter := r } ∧
      (rateLimit opts s key now).2.retryAfterHeader = some r) := by
  unfold rateLimit freshWindow
  cases hkey : s key with
  | none => left; simp [admitHeaders]
  | some e =>
    by_cases hx : e.resetTime < now
    · left; simp [hkey, hx, admitHeaders]
    · by_cases hc : e.count + 1 > opts.maxRequests
      · right
        refine ⟨mathCeilDiv1000 (e.resetTime - now), ?_⟩
        simp [hkey, hx, hc, rejectResponse]
      · left; simp [hkey, hx, hc, admitHeaders]

/-! ## Claim C9 -/

/-- Claim C9: a call only ever creates or mutates the entry of its own key;
the stored entry of every other key is unchanged by the call, so two
different keys never affect each other's counters. -/
theorem c9_key_isolation (opts : RateLimitOptions) (s : Store) (key : String)
    (now : Nat) (k2 : String) (hne : k2 ≠ key) :
    (rateLimit opts s key now).1 k2 = s k2 := by
  unfold rateLimit freshWindow
  cases hkey : s key with
  | none => simp [hne]
  | some e =>
    by_cases hx : e.resetTime < now
    · simp [hx, hne]
    · by_cases hc : e.count + 1 > opts.maxRequests
      · simp [hx, hc, hne]
      · simp [hx, hc, hne]

/-- Witness for C9 at concrete inputs: a call for key "a" leaves key "b"
untouched. -/
theorem c9_key_isolation_witness :
    (("b" : String) ≠ "a") ∧
    ((rateLimit { windowMs := 60000, maxRequests := 10 } c7WitnessStore "a" 0).1 "b"
      = c7WitnessStore "b") :=
  ⟨by decide,
    c9_key_isolation { windowMs := 60000, maxRequests := 10 } c7WitnessStore "a" 0 "b"
      (by decide)⟩

/-! ## Claim C10 -/

/-- Claim C10: expiry is strict at the boundary — an entry whose windowEnd
equals the current time is treated as unexpired both by the per-request check
(the request is counted against the old window: count incremented, windowEnd
kept, reset header still derived from the old windowEnd) and by the sweep
(the entry is not deleted). -/
theorem c10_boundary_strict (opts : RateLimitOptions) (s : Store) (key : String)
    (now c w : Nat) (hkey : s key = some ⟨c, w⟩) (hb : w = now) :
    (rateLimit opts s key now).1 key = some ⟨c + 1, w⟩ ∧
    (rateLimit opts s key now).2.resetHeader = mathCeilDiv1000 w ∧
    sweepStore now s key = some ⟨c, w⟩ := by
  have ht : now ≤ w := le_of_eq hb.symm
  have hsweep : sweepStore now s key = some ⟨c, w⟩ := by
    simp [sweepStore, hkey, not_lt.mpr ht]
  by_cases hc : opts.maxRequests < c + 1
  · obtain ⟨h1, h2⟩ := rateLimit_live_reject opts s key now c w hkey ht hc
    exact ⟨h1, by rw [h2]; rfl, hsweep⟩
  · obtain ⟨h1, h2⟩ := rateLimit_live_admit opts s key now c w hkey ht (by omega)
    exact ⟨h1, by rw [h2]; rfl, hsweep⟩

/-- Store used to witness C10: an entry whose windowEnd is exactly the
current instant. -/
def c10WitnessStore : Store := fun k => if k = "k" then some ⟨3, 100⟩ else none

/-- Witness for C10 at concrete inputs. -/
theorem c10_boundary_strict_witness :
    (c10WitnessStore "k" = some ⟨3, 100⟩) ∧
    ((100 : Nat) = 100) ∧
    ((rateLimit { windowMs := 60000, maxRequests := 10 } c10WitnessStore "k" 100).1 "k"
      = some ⟨3 + 1, 100⟩ ∧
     (rateLimit { windowMs := 60000, maxRequests := 10 } c10WitnessStore "k" 100).2.resetHeader
      = mathCeilDiv1000 100 ∧
     sweepStore 100 c10WitnessStore "k" = some ⟨3, 100⟩) :=
  ⟨rfl, rfl,
    c10_boundary_strict { windowMs := 60000, maxRequests := 10 } c10WitnessStore "k"
      100 3 100 rfl rfl⟩

/-! ## Claim C5 -/

/-- Invariant for a run of in-window calls on a live entry: starting from an
entry with count c, every call is admitted, the count grows by one per call,
and the i-th response reports remaining = maxRequests - (c + i + 1). -/
lemma runCalls_live (opts : RateLimitOptions) (key : String) (w : Nat) :
    ∀ (ts : List Nat) (s : Store) (c : Nat),
      s key = some ⟨c, w⟩ →
      (∀ t ∈ ts, t ≤ w) →
      c + ts.length ≤ opts.maxRequests →
      (runCalls opts key s ts).1 key = some ⟨c + ts.length, w⟩ ∧
      (runCalls opts key s ts).2.length = ts.length ∧
      (∀ i, i < ts.length →
        (runCalls opts key s ts).2.get? i =
          some (admitHeaders opts
            ((opts.maxRequests : Int) - ((c : Int) + (i : Int) + 1)) w))
  | [], s, c, hkey, _, _ => by
    refine ⟨by simpa [runCalls] using hkey, by simp [runCalls], ?_⟩
    intro i hi
    simp at hi
  | t :: ts, s, c, hkey, hin, hle => by
    simp only [List.length_cons] at hle
    have ht : t ≤ w := hin t (List.mem_cons_self t ts)
    have hc : c + 1 ≤ opts.maxRequests := by omega
    obtain ⟨hs1, hout1⟩ := rateLimit_live_admit opts s key t c w hkey ht hc
    obtain ⟨ih1, ih2, ih3⟩ := runCalls_live opts key w ts (rateLimit opts s key t).1
      (c + 1) hs1 (fun x hx => hin x (List.mem_cons_of_mem t hx)) (by omega)
    refine ⟨?_, ?_, ?_⟩
    · simp only [runCalls, List.length_cons]
      rw [ih1]
      have harr : c + 1 + ts.length = c + (ts.length + 1) := by omega
      rw [harr]
    · simp only [runCalls, List.length_cons]
      rw [ih2]
    · intro i hi
      cases i with
      | zero =>
        simp only [runCalls, List.get?_cons_zero]
        rw [hout1]
        norm_num
      | succ i =>
        simp only [runCalls, List.get?_cons_succ, List.length_cons] at hi ⊢
        rw [ih3 i (by omega)]
        congr 2
        push_cast
        ring

/-- Claim C5: starting from no entry, a sequence of at most maxRequests calls
with one key inside one window (first call at t0 opening the window, the rest
at times no later than windowEnd = t0 + windowMs) all return Admit, with the
i-th response reporting remaining = maxRequests - (i + 1), hence decreasing
by exactly 1 per call and reaching 0 on the maxRequests-th call; and when
exactly maxRequests calls have been made, one more call at time tR within the
window returns Reject with remaining clamped to 0 and
retryAfterSeconds = ceil((windowEnd - tR)/1000). -/
theorem c5_window_budget (opts : RateLimitOptions) (s : Store) (key : String)
    (t0 : Nat) (rest : List Nat) (tR : Nat)
    (hkey : s key = none)
    (hlen : rest.length + 1 ≤ opts.maxRequests)
    (hin : ∀ t ∈ rest, t ≤ t0 + opts.windowMs)
    (htR : tR ≤ t0 + opts.windowMs) :
    ((runCalls opts key s (t0 :: rest)).2.length = rest.length + 1) ∧
    (∀ i, i < rest.length + 1 →
      (runCalls opts key s (t0 :: rest)).2.get? i =
        some (admitHeaders opts ((opts.maxRequests : Int) - ((i : Int) + 1))
          (t0 + opts.windowMs))) ∧
    (rest.length + 1 = opts.maxRequests →
      (rateLimit opts (runCalls opts key s (t0 :: rest)).1 key tR).2 =
        rejectResponse opts 0 (mathCeilDiv1000 (t0 + opts.windowMs - tR))
          (t0 + opts.windowMs)) := by
  obtain ⟨hs1, hout1⟩ := rateLimit_fresh opts s key t0 hkey
  obtain ⟨inv1, inv2, inv3⟩ := runCalls_live opts key (t0 + opts.windowMs) rest
    (rateLimit opts s key t0).1 1 hs1 hin (by omega)
  refine ⟨?_, ?_, ?_⟩
  · simp only [runCalls, List.length_cons]
    rw [inv2]
  · intro i hi
    cases i with
    | zero =>
      simp only [runCalls, List.get?_cons_zero]
      rw [hout1]
      norm_num
    | succ i =>
      simp only [runCalls, List.get?_cons_succ]
      rw [inv3 i (by omega)]
      congr 2
      push_cast
      ring
  · intro hfull
    have hstore : (runCalls opts key s (t0 :: rest)).1 key
        = some ⟨1 + rest.length, t0 + opts.windowMs⟩ := by
      simp only [runCalls]
      exact inv1
    obtain ⟨_, hout2⟩ := rateLimit_live_reject opts (runCalls opts key s (t0 :: rest)).1
      key tR (1 + rest.length) (t0 + opts.windowMs) hstore htR (by omega)
    rw [hout2]
    have hmaxeq : max 0 ((opts.maxRequests : Int)
        - (((1 + rest.length : Nat) : Int) + 1)) = 0 := by
      apply max_eq_left
      push_cast
      omega
    rw [hmaxeq]

/-- Witness for C5 at concrete inputs: ceiling 2, calls at times 0 and 1,
then an overflow call at time 2. -/
theorem c5_window_budget_witness :
    (emptyStore "k" = none) ∧
    ((1 + 1 : Nat) ≤ ({ windowMs := 60000, maxRequests := 2 } : RateLimitOptions).maxRequests) ∧
    ((runCalls { windowMs := 60000, maxRequests := 2 } "k" emptyStore [0, 1]).2.length
      = 2) ∧
    ((runCalls { windowMs := 60000, maxRequests := 2 } "k" emptyStore [0, 1]).2.get? 1 =
      some (admitHeaders { windowMs := 60000, maxRequests := 2 }
        ((({ windowMs := 60000, maxRequests := 2 } : RateLimitOptions).maxRequests : Int)
          - (((1 : Nat) : Int) + 1)) (0 + 60000))) ∧
    ((rateLimit { windowMs := 60000, maxRequests := 2 }
        (runCalls { windowMs := 60000, maxRequests := 2 } "k" emptyStore [0, 1]).1
        "k" 2).2 =
      rejectResponse { windowMs := 60000, maxRequests := 2 } 0
        (mathCeilDiv1000 (0 + 60000 - 2)) (0 + 60000)) :=
  have h := c5_window_budget { windowMs := 60000, maxRequests := 2 } emptyStore "k"
    0 [1] 2 rfl (by decide)
    (by intro t ht; simp at ht; subst ht; decide) (by decide)
  ⟨rfl, by decide, h.1, h.2.1 1 (by decide), h.2.2 rfl⟩
